import Mathlib

/-!
Verification of the Groove Slider export pipeline.

This file gives a shallow embedding of the export-related logic of the
Groove Slider slideshow application and proves (or refutes) the claims of
its specification against that embedding.

Embedded source locations:
- ExportModal.jsx: validateFileName, slideshowDuration, totalDuration,
  exceedsMaxDuration, handleLoopCountChange, handleInitiateExport.
- WaveformVisualizer.jsx: calculateDuration and the selected-bar matching
  effect, resizeImage dimension arithmetic, getCoverFilterString,
  handleFileUpload, and handleSaveSession (the render pipeline).

JS numbers are modelled as rationals; the arithmetic involved (products,
divisions, comparisons against 180 and the 0.01 matching epsilon) is exact
at the scales the application uses, so no floating-point behaviour is
load-bearing for these claims.  External collaborators (the image decoder,
the ffmpeg engine, the file-save picker) are modelled at their call
boundary: a success flag per call, and a trace of engine commands issued.
-/

namespace GrooveSlider

/-! ## ExportModal.jsx: filename validation -/

/-- Character class of the allow-list regex in validateFileName:
letters, digits, space, underscore, hyphen, period. -/
def isAllowedFileNameChar (c : Char) : Bool :=
  (('a' ≤ c && c ≤ 'z') || ('A' ≤ c && c ≤ 'Z') || ('0' ≤ c && c ≤ '9')
    || c == ' ' || c == '_' || c == '-' || c == '.')

/-- The JS String.prototype.trim: drop whitespace from both ends.  (Defined
on the character list so it evaluates; String.trim in the library is not
kernel-reducible.) -/
def jsTrim (s : String) : String :=
  String.mk (((s.toList.dropWhile Char.isWhitespace).reverse.dropWhile
    Char.isWhitespace).reverse)

/-- ExportModal.jsx validateFileName: the regex test (nonempty string all of
whose characters are in the allow-list) conjoined with a nonempty trim. -/
def validateFileName (name : String) : Bool :=
  (name.length > 0 && name.toList.all isAllowedFileNameChar) && jsTrim name != ""

/-! ## ExportModal.jsx: duration cap logic -/

/-- ExportModal.jsx: slideshowDuration = stories.length * duration. -/
def slideshowDuration (storiesLen : ℕ) (duration : ℚ) : ℚ :=
  storiesLen * duration

/-- ExportModal.jsx: totalDuration = slideshowDuration * (loop enabled ? loopCount : 1). -/
def totalDuration (slideshowDur : ℚ) (isExportLoopEnabled : Bool) (loopCount : ℤ) : ℚ :=
  slideshowDur * (if isExportLoopEnabled then (loopCount : ℚ) else 1)

/-- ExportModal.jsx: exceedsMaxDuration = totalDuration > 180. -/
def exceedsMaxDuration (totalDur : ℚ) : Bool :=
  totalDur > 180

/-- ExportModal.jsx handleLoopCountChange.  The argument value models the
already-parsed numeric input; parseInt(value) or-else 1 maps 0 to 1.  When
the requested count would push the total past 180 s the count is silently
replaced by max 1 (floor (180 / slideshowDuration)); no error state is set
on this path. -/
def handleLoopCountChange (slideshowDur : ℚ) (value : ℤ) : ℤ :=
  let newCount : ℤ := if value = 0 then 1 else value
  if newCount < 1 then 1
  else
    let newTotalDuration := slideshowDur * newCount
    if newTotalDuration > 180 then max 1 ⌊(180 : ℚ) / slideshowDur⌋
    else newCount

/-- Outcome of ExportModal.jsx handleInitiateExport. -/
inductive InitiateResult where
  | error (msg : String)
  | openFileNamePrompt
deriving DecidableEq, Repr

/-- ExportModal.jsx handleInitiateExport: reject when the total duration
exceeds the cap, otherwise open the file-name prompt (no rendering yet). -/
def handleInitiateExport (totalDur : ℚ) : InitiateResult :=
  if exceedsMaxDuration totalDur then
    .error "Export duration exceeds the 3-minute limit. Please reduce loop count."
  else .openFileNamePrompt

/-! ## WaveformVisualizer.jsx: slide timing model -/

/-- The enumerated bar subdivisions of the duration panel
(0.125, 0.25, 0.5, 1, 2, 4). -/
def barOptions : List ℚ := [1/8, 1/4, 1/2, 1, 2, 4]

/-- WaveformVisualizer.jsx calculateDuration: bars * 4 * 60 / bpm. -/
def calculateDuration (bars bpm : ℚ) : ℚ :=
  bars * 4 * 60 / bpm

/-- The selected-bar matching effect in WaveformVisualizer.jsx: find the
first option whose distance from duration * bpm / (4 * 60) is below 0.01,
defaulting to 1 when none matches. -/
def matchedBar (duration bpm : ℚ) : ℚ :=
  (barOptions.find? (fun option => decide (|duration * bpm / (4 * 60) - option| < 1/100))).getD 1

/-! ## WaveformVisualizer.jsx: asset normalizer (resizeImage) -/

/-- The geometry computed by resizeImage: the scaled draw size
(targetWidth, targetHeight), the canvas size, and the draw offsets. -/
structure ResizeDims where
  targetWidth : ℚ
  targetHeight : ℚ
  canvasWidth : ℚ
  canvasHeight : ℚ
  drawX : ℚ
  drawY : ℚ
deriving DecidableEq, Repr

/-- Dimension arithmetic of WaveformVisualizer.jsx resizeImage.  For cover
the scaled image is drawn centred on a canvas of exactly the requested box;
for any other fit value (contain) the canvas is the scaled image itself and
the offsets are zero.  Pixel encoding is outside the embedding; the claims
concern the geometry only. -/
def resizeImageDims (imgWidth imgHeight maxWidth maxHeight : ℚ) (fit : String) : ResizeDims :=
  let imgRatio := imgWidth / imgHeight
  let targetRatio := maxWidth / maxHeight
  let dims :=
    if fit = "cover" then
      if imgRatio > targetRatio then (maxHeight * imgRatio, maxHeight)
      else (maxWidth, maxWidth / imgRatio)
    else
      if imgRatio > targetRatio then (maxWidth, maxWidth / imgRatio)
      else (maxHeight * imgRatio, maxHeight)
  { targetWidth := dims.1
    targetHeight := dims.2
    canvasWidth := if fit = "cover" then maxWidth else dims.1
    canvasHeight := if fit = "cover" then maxHeight else dims.2
    drawX := if fit = "cover" then (maxWidth - dims.1) / 2 else 0
    drawY := if fit = "cover" then (maxHeight - dims.2) / 2 else 0 }

/-- WaveformVisualizer.jsx getCoverFilterString (export path): the body
returns the scale-and-pad (letterbox) filter for every fitMode; the fitMode
parameter is not consulted. -/
def getCoverFilterString (width height : ℕ) (fitMode : String) : String :=
  s!"scale={width}:{height}:force_original_aspect_ratio=1,pad={width}:{height}:(ow-iw)/2:(oh-ih)/2:black"

/-! ## WaveformVisualizer.jsx: handleFileUpload -/

/-- A file offered to handleFileUpload, at the decoder boundary: whether its
MIME type starts with image, and whether resizeImage succeeds on it (the
img.onerror path of resizeImage rejects for unreadable data). -/
structure UploadFile where
  isImage : Bool
  processOk : Bool
deriving DecidableEq, Repr

/-- User-visible outcome of handleFileUpload: the select-images alert, the
25-photo-limit alert, or an append (truncated records whether the
only-N-photos-can-be-added alert fired). -/
inductive UploadResult where
  | alertOnlyImages
  | alertMaxReached
  | added (truncated : Bool)
deriving DecidableEq, Repr

/-- WaveformVisualizer.jsx handleFileUpload: filter to image files, reject
when 25 photos are already present, truncate to the remaining slots, then
process files one by one; a file whose processing throws is logged and
skipped (the catch block only logs), so the appended list keeps exactly the
successfully processed files. -/
def handleFileUpload (stories : List UploadFile) (eventFiles : List UploadFile) :
    List UploadFile × UploadResult :=
  let files := eventFiles.filter (fun f => f.isImage)
  if files.length = 0 then (stories, .alertOnlyImages)
  else
    let currentPhotoCount := stories.length
    let remainingSlots : ℤ := 25 - currentPhotoCount
    if remainingSlots ≤ 0 then (stories, .alertMaxReached)
    else
      let filesToProcess :=
        if files.length > remainingSlots.toNat then files.take remainingSlots.toNat else files
      let newStories := filesToProcess.filter (fun f => f.processOk)
      (stories ++ newStories, .added (decide (files.length > remainingSlots.toNat)))

/-! ## WaveformVisualizer.jsx: handleSaveSession (render pipeline)

handleSaveSession drives the ffmpeg engine through slide encoding,
concatenation, optional audio muxing, a final read, the file write, and
cleanup.  The embedding records the trace of engine commands, the entries
of the loop_list.txt concat list, the user-visible outcome, whether the
file-save collaborator wrote the output, and the music-fallback message.
External calls are modelled by success flags: fetchOk per slide image,
musicFetchFails and musicExecFails for the audio stage.  The cancellation
flag isCancelledRef.current is a parameter of the run; the source body of
handleSaveSession contains no read of it, so the run cannot depend on it. -/

/-- A slide as seen by the export loop: whether obtaining its image bytes
(exportData, base64Data fallback, or URL fetch) succeeds. -/
structure Story where
  fetchOk : Bool
deriving DecidableEq, Repr

/-- The export settings reaching handleSaveSession, plus the boundary flags
for the audio stage. -/
structure ExportSettings where
  stories : List Story
  duration : ℚ
  isExportLoopEnabled : Bool
  exportLoopDuration : ℚ
  imageFitMode : String
  musicUrl : Option String
  musicStartPoint : ℚ
  musicFetchFails : Bool
  musicExecFails : Bool
deriving DecidableEq, Repr

/-- Engine (ffmpeg) commands issued by handleSaveSession. -/
inductive EngineCmd where
  | writeFile (name : String)
  | execEncodeSlide (input : String) (t : ℚ) (vf : String) (output : String)
  | execConcat (listFile : String) (output : String)
  | execMux (video : String) (ss : ℚ) (audio : String) (output : String)
  | execCopy (input : String) (output : String)
  | readFile (name : String)
  | deleteFile (name : String)
deriving DecidableEq, Repr

/-- User-visible outcome of a run: completion, the export-failed alert, or
nontermination of the loop-list build (the JS loop bound is Infinity when
exportLoopDuration is divided by a zero slideshow duration). -/
inductive ExportOutcome where
  | complete
  | failed (alertMsg : String)
  | hangs
deriving DecidableEq, Repr

/-- Observable result of one handleSaveSession run. -/
structure ExportRun where
  commands : List EngineCmd
  fileList : List String
  outcome : ExportOutcome
  savedFile : Bool
  warningMsg : Option String
  audioIncluded : Bool
deriving DecidableEq, Repr

/-- The error thrown when fetching the data of slide n fails. -/
def imageErrorMsg (n : ℕ) : String :=
  s!"Failed to process image {n}. Please check if all images are valid."

/-- Step 1 of handleSaveSession: process each unique image once.  Returns
the engine commands issued and either the processed clip names or the
thrown error, which names the failing slide (index plus the count of slides
already consumed).  A fetch failure throws before any engine command for
that slide. -/
def processStories (duration : ℚ) (scaleFilter : String) :
    List Story → ℕ → List EngineCmd × Except (ℕ × String) (List String)
  | [], _ => ([], .ok [])
  | story :: rest, i =>
    if story.fetchOk then
      let inputName := s!"input_{i}.png"
      let outputName := s!"processed_{i}.mp4"
      let r := processStories duration scaleFilter rest (i + 1)
      (EngineCmd.writeFile inputName ::
         EngineCmd.execEncodeSlide inputName duration scaleFilter outputName :: r.1,
       r.2.map (fun names => outputName :: names))
    else
      ([], .error (i, imageErrorMsg (i + 1)))

/-- totalSlideshowDuration = stories.length * duration. -/
def totalSlideshowDuration (s : ExportSettings) : ℚ :=
  s.stories.length * s.duration

/-- The loop count of handleSaveSession, or the non-finite JS value arising
from division by a zero slideshow duration. -/
inductive LoopPlan where
  | finite (count : ℤ)
  | unbounded
deriving DecidableEq, Repr

/-- loopCount = loop enabled and exportLoopDuration > 0 ?
ceil (exportLoopDuration / totalSlideshowDuration) : 1. -/
def loopCountOf (s : ExportSettings) : LoopPlan :=
  if s.isExportLoopEnabled = true ∧ 0 < s.exportLoopDuration then
    if totalSlideshowDuration s = 0 then .unbounded
    else .finite ⌈s.exportLoopDuration / totalSlideshowDuration s⌉
  else .finite 1

/-- Step 2 of handleSaveSession: the loop_list.txt entries are loopCount
passes over the processed clip names (a nonpositive count yields zero loop
iterations, as the JS for loop does). -/
def buildFileList (loopCount : ℤ) (names : List String) : List String :=
  (List.replicate loopCount.toNat names).flatten

/-- The temp-file names pushed for n successfully processed slides. -/
def tempFileNames (n : ℕ) : List String :=
  (List.range n).flatMap (fun i => [s!"input_{i}.png", s!"processed_{i}.mp4"])

/-- The audio stage of handleSaveSession.  With no music, copy to the final
container.  With music, a fetch or validation failure issues no mux; a mux
engine failure issues the mux first; both are caught and degrade to a
silent-video copy with the fallback progress message.  On success the audio
is muxed from musicStartPoint with shortest-stream truncation. -/
def musicStage (s : ExportSettings) : List EngineCmd × Option String × Bool :=
  match s.musicUrl with
  | none => ([.execCopy "temp_output.mp4" "final_output.mp4"], none, false)
  | some _ =>
    if s.musicFetchFails then
      ([.execCopy "temp_output.mp4" "final_output.mp4"],
       some "Music processing failed, creating video without audio...", false)
    else if s.musicExecFails then
      ([.writeFile "background.mp3",
        .execMux "temp_output.mp4" s.musicStartPoint "background.mp3" "final_output.mp4",
        .execCopy "temp_output.mp4" "final_output.mp4"],
       some "Music processing failed, creating video without audio...", false)
    else
      ([.writeFile "background.mp3",
        .execMux "temp_output.mp4" s.musicStartPoint "background.mp3" "final_output.mp4",
        .deleteFile "background.mp3", .deleteFile "temp_output.mp4"],
       none, true)

/-- One run of handleSaveSession.  isCancelled is the value of
isCancelledRef.current while the run executes; the source body never reads
that ref, so it does not occur in the right-hand side.  The engine itself
is assumed to execute issued commands successfully except where a boundary
flag says otherwise; validation behaviour, command traces and outcomes are
what the claims inspect. -/
def runExport (isCancelled : Bool) (width height : ℕ) (s : ExportSettings) : ExportRun :=
  let scaleFilter := getCoverFilterString width height s.imageFitMode
  let pr := processStories s.duration scaleFilter s.stories 0
  match pr.2 with
  | .error ei =>
      { commands := pr.1 ++ (tempFileNames ei.1).map EngineCmd.deleteFile
        fileList := []
        outcome := .failed s!"Export failed: {ei.2}"
        savedFile := false
        warningMsg := none
        audioIncluded := false }
  | .ok processedNames =>
    match loopCountOf s with
    | .unbounded =>
        { commands := pr.1
          fileList := []
          outcome := .hangs
          savedFile := false
          warningMsg := none
          audioIncluded := false }
    | .finite loopCount =>
        let m := musicStage s
        let tempFiles := tempFileNames s.stories.length ++ ["loop_list.txt", "temp_output.mp4"]
        { commands :=
            pr.1
              ++ [EngineCmd.writeFile "loop_list.txt",
                  EngineCmd.execConcat "loop_list.txt" "temp_output.mp4"]
              ++ m.1
              ++ [EngineCmd.readFile "final_output.mp4"]
              ++ tempFiles.map EngineCmd.deleteFile
              ++ [EngineCmd.deleteFile "final_output.mp4"]
          fileList := buildFileList loopCount processedNames
          outcome := .complete
          savedFile := true
          warningMsg := m.2.1
          audioIncluded := m.2.2 }

/-! ## Claim C8: filename validation -/

/-- Claim C8: output filename validation accepts exactly the strings made
of letters, digits, spaces, underscores, hyphens and periods that are
non-empty after trimming, and rejects everything else; in particular the
listed example strings are accepted resp. rejected. -/
theorem validateFileName_spec :
    (∀ s : String, validateFileName s = true ↔
      ((∀ c ∈ s.toList, isAllowedFileNameChar c = true) ∧ jsTrim s ≠ "")) ∧
    validateFileName "My Slideshow 1.mp4" = true ∧
    validateFileName "" = false ∧
    validateFileName "   " = false ∧
    validateFileName "bad/name" = false ∧
    validateFileName "weird*chars?" = false := by
  refine ⟨?_, by decide, by decide, by decide, by decide, by decide⟩
  intro s
  constructor
  · intro h
    simp only [validateFileName, Bool.and_eq_true, decide_eq_true_eq, List.all_eq_true,
      bne_iff_ne, ne_eq] at h
    exact ⟨h.1.2, h.2⟩
  · rintro ⟨hall, htrim⟩
    have hne : s ≠ "" := by
      intro hs
      rw [hs] at htrim
      exact htrim rfl
    simp only [validateFileName, Bool.and_eq_true, decide_eq_true_eq, List.all_eq_true,
      bne_iff_ne, ne_eq, gt_iff_lt]
    refine ⟨⟨?_, hall⟩, htrim⟩
    cases s with
    | mk data =>
      cases data with
      | nil => exact absurd rfl hne
      | cons a l => simp [String.length]

/-- Concrete instantiation of the C8 theorem. -/
theorem validateFileName_spec_witness : validateFileName "abc" = true :=
  (validateFileName_spec.1 "abc").mpr ⟨by decide, by decide⟩

/-! ## Claim C4: the 180 s hard cap -/

/-- Claim C4 counterexample: with a 30 s slideshow, requesting a loop count
of 10 (total 300 s, above the cap) is not rejected: handleLoopCountChange
silently replaces it by 6 and surfaces no error. -/
theorem loopCount_silent_clamp_counterexample :
    (30 : ℚ) * ((10 : ℤ) : ℚ) > 180 ∧
    handleLoopCountChange 30 10 = 6 ∧
    (6 : ℤ) < 10 := by
  have hfloor : ⌊(180 : ℚ) / 30⌋ = 6 := by norm_num
  refine ⟨by norm_num, ?_, by norm_num⟩
  norm_num [handleLoopCountChange, hfloor]

/-- Claim C4 (amended): a configuration whose total duration exceeds 180 s
is rejected with a user-facing error at export initiation, before any
rendering; but a loop-count input that would push the total past 180 s is
silently clamped to max 1 (floor (180 / slideshowDuration)) rather than
rejected. -/
theorem duration_cap_rejected_at_initiate_but_clamped_on_input :
    (∀ totalDur : ℚ, exceedsMaxDuration totalDur = true →
      handleInitiateExport totalDur =
        .error "Export duration exceeds the 3-minute limit. Please reduce loop count.") ∧
    (∀ (slideshowDur : ℚ) (value : ℤ), 1 ≤ value → 180 < slideshowDur * value →
      handleLoopCountChange slideshowDur value = max 1 ⌊(180 : ℚ) / slideshowDur⌋) := by
  constructor
  · intro t ht
    simp [handleInitiateExport, ht]
  · intro d v h1 h2
    have hv0 : ¬ v = 0 := by omega
    simp only [handleLoopCountChange, if_neg hv0]
    rw [if_neg (by omega), if_pos (by exact_mod_cast h2)]

/-- Concrete instantiation of the C4 amended theorem. -/
theorem duration_cap_rejected_at_initiate_but_clamped_on_input_witness :
    handleInitiateExport 200 =
      .error "Export duration exceeds the 3-minute limit. Please reduce loop count." ∧
    handleLoopCountChange 30 10 = max 1 ⌊(180 : ℚ) / 30⌋ :=
  ⟨duration_cap_rejected_at_initiate_but_clamped_on_input.1 200
      (by norm_num [exceedsMaxDuration]),
   duration_cap_rejected_at_initiate_but_clamped_on_input.2 30 10 (by norm_num) (by norm_num)⟩

/-! ## Claim C7: tempo and subdivision round-trip -/

/-- Distinct enumerated subdivisions are at least 0.125 apart, so the 0.01
epsilon separates them. -/
lemma barOptions_separated (a b : ℚ) (ha : a ∈ barOptions) (hb : b ∈ barOptions)
    (hab : |a - b| < 1/100) : a = b := by
  fin_cases ha <;> fin_cases hb <;> norm_num <;> norm_num [abs_lt] at hab

/-- For a subdivision in the enumerated set, the first option within 0.01
of it is the subdivision itself. -/
lemma find_bar_of_mem (sub : ℚ) (h : sub ∈ barOptions) :
    (barOptions.find? (fun o => decide (|sub - o| < 1/100))).getD 1 = sub := by
  cases hf : barOptions.find? (fun o => decide (|sub - o| < 1/100)) with
  | none =>
    exfalso
    have := List.find?_eq_none.mp hf sub h
    simp only [decide_eq_true_eq] at this
    exact this (by norm_num)
  | some x =>
    have hpx : |sub - x| < 1/100 := by
      have := List.find?_some hf
      simpa using this
    have hx : x ∈ barOptions := List.mem_of_find?_eq_some hf
    have : sub = x := barOptions_separated sub x h hx hpx
    simp [this]

/-- Claim C7: for every tempo in the 20 to 300 range and every subdivision
in the enumerated set, matching the duration computed from the subdivision
back against the set returns that same subdivision. -/
theorem matchSubdivision_roundtrip (bpm sub : ℚ) (h₁ : 20 ≤ bpm) (h₂ : bpm ≤ 300)
    (h₃ : sub ∈ barOptions) :
    matchedBar (calculateDuration sub bpm) bpm = sub := by
  have hbpm : bpm ≠ 0 := by
    intro h
    rw [h] at h₁
    norm_num at h₁
  have key : calculateDuration sub bpm * bpm / (4 * 60) = sub := by
    field_simp [calculateDuration]
    ring
  simp only [matchedBar, key]
  exact find_bar_of_mem sub h₃

/-- Concrete instantiation of the C7 theorem. -/
theorem matchSubdivision_roundtrip_witness :
    matchedBar (calculateDuration (1/2) 120) 120 = 1/2 :=
  matchSubdivision_roundtrip 120 (1/2) (by norm_num) (by norm_num) (by norm_num [barOptions])

/-! ## Claim C10: the 25-photo limit -/

/-- Branch-free characterization of handleFileUpload. -/
lemma handleFileUpload_eq (stories files : List UploadFile) :
    handleFileUpload stories files =
      if (files.filter (fun f => f.isImage)).length = 0 then (stories, .alertOnlyImages)
      else if (25 : ℤ) - stories.length ≤ 0 then (stories, .alertMaxReached)
      else
        (stories ++
          (((files.filter (fun f => f.isImage)).take ((25 : ℤ) - stories.length).toNat).filter
            (fun f => f.processOk)),
         .added (decide ((files.filter (fun f => f.isImage)).length >
            ((25 : ℤ) - stories.length).toNat))) := by
  simp only [handleFileUpload]
  split_ifs with h0 h1 h2
  · rfl
  · rfl
  · rfl
  · rw [List.take_of_length_le (by omega)]

/-- Claim C10: the slide list never exceeds 25 slides through uploads; an
upload with 25 slides present leaves the list unchanged, and an upload
exceeding the free slots processes only the truncated prefix. -/
theorem upload_photo_limit (stories files : List UploadFile) (h : stories.length ≤ 25) :
    (handleFileUpload stories files).1.length ≤ 25 ∧
    (stories.length = 25 → (handleFileUpload stories files).1 = stories) ∧
    ((files.filter (fun f => f.isImage)).length > 25 - stories.length →
      (handleFileUpload stories files).1 =
        stories ++ (((files.filter (fun f => f.isImage)).take (25 - stories.length)).filter
          (fun f => f.processOk))) := by
  rw [handleFileUpload_eq]
  split_ifs with h0 h1
  · refine ⟨h, fun _ => rfl, fun hgt => ?_⟩
    have hfs : files.filter (fun f => f.isImage) = [] := List.length_eq_zero.mp h0
    simp [hfs]
  · have h25 : stories.length = 25 := by omega
    refine ⟨h, fun _ => rfl, fun hgt => ?_⟩
    simp [h25]
  · have hlt : stories.length < 25 := by omega
    have htn : ((25 : ℤ) - stories.length).toNat = 25 - stories.length := by omega
    have l1 : (((files.filter (fun f => f.isImage)).take
        ((25 : ℤ) - stories.length).toNat).filter (fun f => f.processOk)).length ≤
        ((25 : ℤ) - stories.length).toNat :=
      le_trans (List.length_filter_le _ _) (List.length_take_le _ _)
    refine ⟨?_, fun h25 => absurd h25 (by omega), fun hgt => ?_⟩
    · rw [List.length_append]
      omega
    · rw [htn]

/-- Concrete instantiation of the C10 theorem. -/
theorem upload_photo_limit_witness :
    (handleFileUpload [] [⟨true, true⟩]).1.length ≤ 25 ∧
    (([] : List UploadFile).length = 25 → (handleFileUpload [] [⟨true, true⟩]).1 = []) ∧
    (([(⟨true, true⟩ : UploadFile)].filter (fun f => f.isImage)).length >
        25 - ([] : List UploadFile).length →
      (handleFileUpload [] [⟨true, true⟩]).1 =
        [] ++ ((([(⟨true, true⟩ : UploadFile)].filter (fun f => f.isImage)).take
          (25 - ([] : List UploadFile).length)).filter (fun f => f.processOk))) :=
  upload_photo_limit [] [⟨true, true⟩] (by decide)

/-! ## Claim C3: failed image normalization -/

/-- Claim C3 counterexample: uploading a readable and an unreadable image
does not fail the operation; the unreadable one is silently dropped and the
other is appended, with no error outcome. -/
theorem upload_silently_drops_failed_image :
    handleFileUpload [] [⟨true, true⟩, ⟨true, false⟩] = ([⟨true, true⟩], .added false) := by
  decide

/-! ## Claim C2: fit modes of the asset normalizer -/

/-- resizeImageDims in cover mode for an image wider than the target ratio:
match the height, crop the width. -/
lemma resizeImageDims_cover_wide (imgW imgH maxW maxH : ℚ)
    (hr : imgW / imgH > maxW / maxH) :
    resizeImageDims imgW imgH maxW maxH "cover" =
      ⟨maxH * (imgW / imgH), maxH, maxW, maxH,
       (maxW - maxH * (imgW / imgH)) / 2, (maxH - maxH) / 2⟩ := by
  simp [resizeImageDims, hr]

/-- resizeImageDims in cover mode for an image at most the target ratio:
match the width, crop the height. -/
lemma resizeImageDims_cover_tall (imgW imgH maxW maxH : ℚ)
    (hr : ¬ imgW / imgH > maxW / maxH) :
    resizeImageDims imgW imgH maxW maxH "cover" =
      ⟨maxW, maxW / (imgW / imgH), maxW, maxH,
       (maxW - maxW) / 2, (maxH - maxW / (imgW / imgH)) / 2⟩ := by
  simp [resizeImageDims, hr]

/-- resizeImageDims in contain mode for an image wider than the target
ratio: match the width; the canvas is the scaled image itself. -/
lemma resizeImageDims_contain_wide (imgW imgH maxW maxH : ℚ)
    (hr : imgW / imgH > maxW / maxH) :
    resizeImageDims imgW imgH maxW maxH "contain" =
      ⟨maxW, maxW / (imgW / imgH), maxW, maxW / (imgW / imgH), 0, 0⟩ := by
  simp [resizeImageDims, hr]

/-- resizeImageDims in contain mode for an image at most the target ratio:
match the height; the canvas is the scaled image itself. -/
lemma resizeImageDims_contain_tall (imgW imgH maxW maxH : ℚ)
    (hr : ¬ imgW / imgH > maxW / maxH) :
    resizeImageDims imgW imgH maxW maxH "contain" =
      ⟨maxH * (imgW / imgH), maxH, maxH * (imgW / imgH), maxH, 0, 0⟩ := by
  simp [resizeImageDims, hr]

/-- Claim C2 counterexample: the export-path filter string for cover equals
the contain (letterbox) filter, so cover never center-crops at encode time;
and resizeImage with contain does not pad to the target box: a square
100 by 100 image normalized to a 720 by 1280 box yields a 720 by 720
canvas, not 720 by 1280. -/
theorem fitMode_counterexample :
    getCoverFilterString 1080 1920 "cover" = getCoverFilterString 1080 1920 "contain" ∧
    (resizeImageDims 100 100 720 1280 "contain").canvasWidth = 720 ∧
    (resizeImageDims 100 100 720 1280 "contain").canvasHeight = 720 ∧
    (resizeImageDims 100 100 720 1280 "contain").canvasHeight ≠ 1280 := by
  have h := resizeImageDims_contain_wide 100 100 720 1280 (by norm_num)
  refine ⟨rfl, ?_, ?_, ?_⟩ <;> rw [h] <;> norm_num

/-- The corrected geometry of the asset normalizer, for the amended C2
claim: in cover mode the canvas is exactly the target box, the scaled image
covers it (both scaled dimensions at least the target, the smaller relative
one equal), aspect ratio is preserved and the crop is centred; in contain
mode the scaled image fits inside the box with preserved aspect ratio and
the canvas is the scaled image itself, with no padding offsets. -/
def normalizerGeometry (imgW imgH maxW maxH : ℚ) : Prop :=
  (resizeImageDims imgW imgH maxW maxH "cover").canvasWidth = maxW ∧
  (resizeImageDims imgW imgH maxW maxH "cover").canvasHeight = maxH ∧
  maxW ≤ (resizeImageDims imgW imgH maxW maxH "cover").targetWidth ∧
  maxH ≤ (resizeImageDims imgW imgH maxW maxH "cover").targetHeight ∧
  ((resizeImageDims imgW imgH maxW maxH "cover").targetWidth = maxW ∨
    (resizeImageDims imgW imgH maxW maxH "cover").targetHeight = maxH) ∧
  (resizeImageDims imgW imgH maxW maxH "cover").targetWidth * imgH =
    (resizeImageDims imgW imgH maxW maxH "cover").targetHeight * imgW ∧
  2 * (resizeImageDims imgW imgH maxW maxH "cover").drawX =
    maxW - (resizeImageDims imgW imgH maxW maxH "cover").targetWidth ∧
  2 * (resizeImageDims imgW imgH maxW maxH "cover").drawY =
    maxH - (resizeImageDims imgW imgH maxW maxH "cover").targetHeight ∧
  (resizeImageDims imgW imgH maxW maxH "contain").canvasWidth =
    (resizeImageDims imgW imgH maxW maxH "contain").targetWidth ∧
  (resizeImageDims imgW imgH maxW maxH "contain").canvasHeight =
    (resizeImageDims imgW imgH maxW maxH "contain").targetHeight ∧
  (resizeImageDims imgW imgH maxW maxH "contain").targetWidth ≤ maxW ∧
  (resizeImageDims imgW imgH maxW maxH "contain").targetHeight ≤ maxH ∧
  ((resizeImageDims imgW imgH maxW maxH "contain").targetWidth = maxW ∨
    (resizeImageDims imgW imgH maxW maxH "contain").targetHeight = maxH) ∧
  (resizeImageDims imgW imgH maxW maxH "contain").targetWidth * imgH =
    (resizeImageDims imgW imgH maxW maxH "contain").targetHeight * imgW ∧
  (resizeImageDims imgW imgH maxW maxH "contain").drawX = 0 ∧
  (resizeImageDims imgW imgH maxW maxH "contain").drawY = 0

/-- Claim C2 (amended): resizeImage implements cover as scale-to-fill with
a centred crop to exactly the target dimensions and contain as scale-to-fit
with no padding, while the export-path getCoverFilterString ignores its
fitMode argument entirely. -/
theorem resize_geometry_and_filter_ignores_fitMode (imgW imgH maxW maxH : ℚ)
    (hiw : 0 < imgW) (hih : 0 < imgH) (hmw : 0 < maxW) (hmh : 0 < maxH) :
    normalizerGeometry imgW imgH maxW maxH ∧
    ∀ (w h : ℕ) (m₁ m₂ : String), getCoverFilterString w h m₁ = getCoverFilterString w h m₂ := by
  refine ⟨?_, fun w h m₁ m₂ => rfl⟩
  have hihne : imgH ≠ 0 := ne_of_gt hih
  have hiwne : imgW ≠ 0 := ne_of_gt hiw
  have hmhne : maxH ≠ 0 := ne_of_gt hmh
  have hrpos : 0 < imgW / imgH := div_pos hiw hih
  unfold normalizerGeometry
  by_cases hr : imgW / imgH > maxW / maxH
  · rw [resizeImageDims_cover_wide imgW imgH maxW maxH hr,
        resizeImageDims_contain_wide imgW imgH maxW maxH hr]
    have hcross : maxW * imgH < imgW * maxH := (div_lt_div_iff₀ hmh hih).mp hr
    have hWcov : maxW ≤ maxH * (imgW / imgH) := by
      rw [← mul_div_assoc, le_div_iff₀ hih]
      nlinarith [hcross]
    have hHcon : maxW / (imgW / imgH) ≤ maxH := by
      rw [div_le_iff₀ hrpos]
      exact hWcov
    refine ⟨rfl, rfl, hWcov, le_refl _, Or.inr rfl, ?_, by ring, by ring,
            rfl, rfl, le_refl _, hHcon, Or.inl rfl, ?_, rfl, rfl⟩
    · field_simp
    · field_simp
  · rw [resizeImageDims_cover_tall imgW imgH maxW maxH hr,
        resizeImageDims_contain_tall imgW imgH maxW maxH hr]
    push_neg at hr
    have hcross : imgW * maxH ≤ maxW * imgH := (div_le_div_iff₀ hih hmh).mp hr
    have hWcon : maxH * (imgW / imgH) ≤ maxW := by
      rw [← mul_div_assoc, div_le_iff₀ hih]
      nlinarith [hcross]
    have hHcov : maxH ≤ maxW / (imgW / imgH) := by
      rw [le_div_iff₀ hrpos]
      exact hWcon
    refine ⟨rfl, rfl, le_refl _, hHcov, Or.inl rfl, ?_, by ring, by ring,
            rfl, rfl, hWcon, le_refl _, Or.inr rfl, ?_, rfl, rfl⟩
    · field_simp
    · field_simp

/-- Concrete instantiation of the C2 amended theorem. -/
theorem resize_geometry_and_filter_ignores_fitMode_witness :
    normalizerGeometry 100 100 720 1280 ∧
    ∀ (w h : ℕ) (m₁ m₂ : String), getCoverFilterString w h m₁ = getCoverFilterString w h m₂ :=
  resize_geometry_and_filter_ignores_fitMode 100 100 720 1280
    (by norm_num) (by norm_num) (by norm_num) (by norm_num)

/-! ## Render pipeline lemmas -/

/-- The processed clip names of consecutive successful slides starting at a
given index. -/
def okNames : List Story → ℕ → List String
  | [], _ => []
  | _ :: rest, i => s!"processed_{i}.mp4" :: okNames rest (i + 1)

lemma okNames_length (l : List Story) : ∀ n : ℕ, (okNames l n).length = l.length := by
  induction l with
  | nil => intro n; rfl
  | cons st rest ih => intro n; simp [okNames, ih (n + 1)]

/-- With every image fetch succeeding, step 1 returns one processed clip
name per slide. -/
lemma processStories_ok (d : ℚ) (f : String) (l : List Story) :
    ∀ n : ℕ, (∀ st ∈ l, st.fetchOk = true) →
      (processStories d f l n).2 = .ok (okNames l n) := by
  induction l with
  | nil => intro n _; rfl
  | cons st rest ih =>
    intro n h
    have hst : st.fetchOk = true := h st (List.mem_cons_self st rest)
    have hrest := ih (n + 1) (fun x hx => h x (List.mem_cons_of_mem st hx))
    simp [processStories, hst, hrest, okNames, Except.map]

/-- A fetch failure at the first failing index makes step 1 throw the
error naming that slide. -/
lemma processStories_err (d : ℚ) (f : String) (l : List Story) :
    ∀ (n i : ℕ) (hi : i < l.length),
      (l.get ⟨i, hi⟩).fetchOk = false →
      (∀ j (hj : j < l.length), j < i → (l.get ⟨j, hj⟩).fetchOk = true) →
      (processStories d f l n).2 = .error (n + i, imageErrorMsg (n + i + 1)) := by
  induction l with
  | nil => intro n i hi _ _; exact absurd hi (Nat.not_lt_zero i)
  | cons st rest ih =>
    intro n i hi hbad hfirst
    have hlen : (st :: rest).length = rest.length + 1 := List.length_cons st rest
    cases i with
    | zero =>
      have hst : st.fetchOk = false := hbad
      simp [processStories, hst]
    | succ i₀ =>
      have hst : st.fetchOk = true := hfirst 0 (by omega) (by omega)
      have hi₀ : i₀ < rest.length := by omega
      have hbad' : (rest.get ⟨i₀, hi₀⟩).fetchOk = false := hbad
      have hfirst' : ∀ j (hj : j < rest.length), j < i₀ → (rest.get ⟨j, hj⟩).fetchOk = true := by
        intro j hj hlt
        exact hfirst (j + 1) (by omega) (by omega)
      have hrec := ih (n + 1) i₀ hi₀ hbad' hfirst'
      have harith : n + 1 + i₀ = n + (i₀ + 1) := by omega
      rw [harith] at hrec
      simp [processStories, hst, hrec, Except.map]

lemma flatten_replicate_length (n : ℕ) (l : List String) :
    ((List.replicate n l).flatten).length = n * l.length := by
  induction n with
  | zero => simp
  | succ m ih =>
    rw [List.replicate_succ, List.flatten_cons, List.length_append, ih, Nat.succ_mul]
    ring

lemma buildFileList_length (k : ℤ) (names : List String) :
    (buildFileList k names).length = k.toNat * names.length :=
  flatten_replicate_length k.toNat names

/-- The alert message of the outer catch block applied to the image-fetch
error message. -/
lemma export_failed_msg (n : ℕ) :
    (s!"Export failed: {imageErrorMsg n}") =
      s!"Export failed: Failed to process image {n}. Please check if all images are valid." := by
  show "Export failed: " ++
      ("Failed to process image " ++ toString n ++ ". Please check if all images are valid.") ++ "" =
    "Export failed: Failed to process image " ++ toString n ++
      ". Please check if all images are valid."
  rw [String.append_empty, ← String.append_assoc, ← String.append_assoc]
  rfl

/-! ## Claim C1: cancellation -/

/-- Claim C1 evidence (code bug): handleSaveSession never reads the
cancellation flag, so a run is identical for any flag value; in particular
a run with cancellation requested still issues every engine command, still
invokes the file-save collaborator, and ends Complete, not Cancelled. -/
theorem cancellation_flag_ignored :
    (∀ (c₁ c₂ : Bool) (w h : ℕ) (s : ExportSettings),
      runExport c₁ w h s = runExport c₂ w h s) ∧
    (runExport true 1080 1920
      ⟨[⟨true⟩], 2, false, 0, "contain", none, 0, false, false⟩).savedFile = true ∧
    (runExport true 1080 1920
      ⟨[⟨true⟩], 2, false, 0, "contain", none, 0, false, false⟩).outcome = .complete :=
  ⟨fun _ _ _ _ _ => rfl, rfl, rfl⟩

/-! ## Claim C3 (amended): export fails on a bad image, upload drops it -/

/-- Claim C3 (amended): during export, a failed image fetch fails the whole
job with an error naming the first failing slide, and nothing is saved;
during upload, by contrast, a file whose processing fails is silently
dropped: the appended suffix contains only successfully processed files and
no error outcome exists for that case. -/
theorem bad_image_fails_export_but_upload_drops (c : Bool) (w hgt : ℕ) (s : ExportSettings)
    (i : ℕ) (hi : i < s.stories.length)
    (hbad : (s.stories.get ⟨i, hi⟩).fetchOk = false)
    (hfirst : ∀ j (hj : j < s.stories.length), j < i → (s.stories.get ⟨j, hj⟩).fetchOk = true) :
    (runExport c w hgt s).outcome =
      .failed s!"Export failed: Failed to process image {i + 1}. Please check if all images are valid." ∧
    (runExport c w hgt s).savedFile = false ∧
    (∀ stories files : List UploadFile,
      ((handleFileUpload stories files).1.drop stories.length).all
        (fun f => f.processOk) = true) := by
  have herr := processStories_err s.duration (getCoverFilterString w hgt s.imageFitMode)
      s.stories 0 i hi hbad hfirst
  simp only [Nat.zero_add] at herr
  refine ⟨?_, ?_, ?_⟩
  · simp [runExport, herr, export_failed_msg]
  · simp [runExport, herr]
  · intro stories files
    rw [handleFileUpload_eq]
    split_ifs with h0 h1
    · simp
    · simp
    · rw [List.drop_left]
      simp only [List.all_eq_true, decide_eq_true_eq]
      intro f hf
      exact (List.mem_filter.mp hf).2

/-- Concrete instantiation of the C3 amended theorem: a two-slide export
whose second image is unreadable fails naming slide 2. -/
theorem bad_image_fails_export_but_upload_drops_witness :
    (runExport false 1080 1920
      ⟨[⟨true⟩, ⟨false⟩], 2, false, 0, "contain", none, 0, false, false⟩).outcome =
      .failed s!"Export failed: Failed to process image {1 + 1}. Please check if all images are valid." ∧
    (runExport false 1080 1920
      ⟨[⟨true⟩, ⟨false⟩], 2, false, 0, "contain", none, 0, false, false⟩).savedFile = false ∧
    (∀ stories files : List UploadFile,
      ((handleFileUpload stories files).1.drop stories.length).all
        (fun f => f.processOk) = true) :=
  bad_image_fails_export_but_upload_drops false 1080 1920
    ⟨[⟨true⟩, ⟨false⟩], 2, false, 0, "contain", none, 0, false, false⟩ 1
    (by decide) (by decide)
    (fun j hj hlt => by
      have hj0 : j = 0 := by omega
      subst hj0
      rfl)

/-! ## Claim C5: loop planning -/

/-- Claim C5: with looping enabled and a positive requested duration, the
planned loop count is ceil(requested / base) where base is
slideCount * perSlideDuration; the concat list holds loopCount passes over
the slide clips, each clip lasting the per-slide duration, so the effective
duration is loopCount * base; and numerically, 3 slides of 2 s with a
requested 20 s give ceil(20/6) = 4, and 4 * 6 = 24 s does not exceed the
cap. -/
theorem loop_planner_spec (c : Bool) (w hgt : ℕ) (s : ExportSettings)
    (hloop : s.isExportLoopEnabled = true) (hreq : 0 < s.exportLoopDuration)
    (hbase : 0 < totalSlideshowDuration s)
    (hall : ∀ st ∈ s.stories, st.fetchOk = true) :
    loopCountOf s = .finite ⌈s.exportLoopDuration / totalSlideshowDuration s⌉ ∧
    (runExport c w hgt s).fileList.length =
      (⌈s.exportLoopDuration / totalSlideshowDuration s⌉).toNat * s.stories.length ∧
    ((runExport c w hgt s).fileList.length : ℚ) * s.duration =
      ((⌈s.exportLoopDuration / totalSlideshowDuration s⌉).toNat : ℚ) *
        totalSlideshowDuration s ∧
    ⌈(20 : ℚ) / ((3 : ℚ) * 2)⌉ = 4 ∧
    exceedsMaxDuration (4 * ((3 : ℚ) * 2)) = false := by
  have hne : totalSlideshowDuration s ≠ 0 := ne_of_gt hbase
  have hplan : loopCountOf s = .finite ⌈s.exportLoopDuration / totalSlideshowDuration s⌉ := by
    unfold loopCountOf
    rw [if_pos ⟨hloop, hreq⟩, if_neg hne]
  have hok := processStories_ok s.duration (getCoverFilterString w hgt s.imageFitMode)
      s.stories 0 hall
  have hfl : (runExport c w hgt s).fileList =
      buildFileList ⌈s.exportLoopDuration / totalSlideshowDuration s⌉ (okNames s.stories 0) := by
    simp [runExport, hok, hplan]
  refine ⟨hplan, ?_, ?_, by rw [Int.ceil_eq_iff]; norm_num, by norm_num [exceedsMaxDuration]⟩
  · rw [hfl, buildFileList_length, okNames_length]
  · rw [hfl, buildFileList_length, okNames_length, totalSlideshowDuration]
    push_cast
    ring

/-- Concrete instantiation of the C5 theorem: 3 slides of 2 s with a
requested 20 s give loop count 4, a 12-entry concat list, and an effective
duration of 24 s. -/
theorem loop_planner_spec_witness :
    loopCountOf ⟨[⟨true⟩, ⟨true⟩, ⟨true⟩], 2, true, 20, "contain", none, 0, false, false⟩ =
      .finite 4 ∧
    (runExport false 1080 1920
      ⟨[⟨true⟩, ⟨true⟩, ⟨true⟩], 2, true, 20, "contain", none, 0, false, false⟩).fileList.length
      = 12 ∧
    ((runExport false 1080 1920
      ⟨[⟨true⟩, ⟨true⟩, ⟨true⟩], 2, true, 20, "contain", none, 0, false, false⟩).fileList.length
      : ℚ) * 2 = 24 := by
  obtain ⟨h1, h2, h3, -, -⟩ :=
    loop_planner_spec false 1080 1920
      ⟨[⟨true⟩, ⟨true⟩, ⟨true⟩], 2, true, 20, "contain", none, 0, false, false⟩
      rfl (by norm_num) (by norm_num [totalSlideshowDuration]) (by decide)
  have htot : totalSlideshowDuration
      ⟨[⟨true⟩, ⟨true⟩, ⟨true⟩], 2, true, 20, "contain", none, 0, false, false⟩ = 6 := by
    norm_num [totalSlideshowDuration]
  rw [htot] at h1 h2 h3
  have hceil : ⌈(20 : ℚ) / 6⌉ = 4 := by
    rw [Int.ceil_eq_iff]
    norm_num
  rw [hceil] at h1 h2
  have h2' : (runExport false 1080 1920
      ⟨[⟨true⟩, ⟨true⟩, ⟨true⟩], 2, true, 20, "contain", none, 0, false, false⟩).fileList.length
      = 12 := by
    rw [h2]
    decide
  refine ⟨h1, h2', ?_⟩
  rw [h2']
  norm_num

/-! ## Claim C6: empty or zero-duration export -/

/-- Claim C6 counterexample: an export request with zero slides is not
rejected before rendering: the pipeline issues engine commands (including
concatenating an empty list), completes and saves under a compliant engine;
and if looping is requested with a positive target, the loop-count division
by the zero slideshow duration makes the list-building loop unbounded. -/
theorem zero_slides_not_rejected :
    (runExport false 1080 1920
      ⟨[], 2, false, 0, "contain", none, 0, false, false⟩).commands ≠ [] ∧
    (runExport false 1080 1920
      ⟨[], 2, false, 0, "contain", none, 0, false, false⟩).outcome = .complete ∧
    (runExport false 1080 1920
      ⟨[], 2, false, 0, "contain", none, 0, false, false⟩).savedFile = true ∧
    (runExport false 1080 1920
      ⟨[], 2, true, 20, "contain", none, 0, false, false⟩).outcome = .hangs := by
  refine ⟨?_, rfl, rfl, ?_⟩
  · simp [runExport, processStories, loopCountOf, musicStage, tempFileNames]
  · have htot : totalSlideshowDuration
        ⟨[], 2, true, 20, "contain", none, 0, false, false⟩ = 0 := by
      norm_num [totalSlideshowDuration]
    have hplan : loopCountOf ⟨[], 2, true, 20, "contain", none, 0, false, false⟩ =
        .unbounded := by
      unfold loopCountOf
      rw [if_pos ⟨rfl, by norm_num⟩, if_pos htot]
    simp [runExport, processStories, hplan]

/-- Claim C6 (amended): handleSaveSession performs no slide-count or
per-slide-duration validation.  With a zero slideshow duration (zero slides
or zero duration) the run either never terminates (when looping with a
positive target is requested, the JS loop bound being Infinity) or proceeds
to issue engine commands and complete; no validation rejection exists. -/
theorem no_zero_duration_validation (c : Bool) (w hgt : ℕ) (s : ExportSettings)
    (htot : totalSlideshowDuration s = 0)
    (hall : ∀ st ∈ s.stories, st.fetchOk = true) :
    (s.isExportLoopEnabled = true ∧ 0 < s.exportLoopDuration →
      (runExport c w hgt s).outcome = .hangs) ∧
    (¬ (s.isExportLoopEnabled = true ∧ 0 < s.exportLoopDuration) →
      (runExport c w hgt s).outcome = .complete ∧
      (runExport c w hgt s).commands ≠ [] ∧
      (runExport c w hgt s).savedFile = true) := by
  have hok := processStories_ok s.duration (getCoverFilterString w hgt s.imageFitMode)
      s.stories 0 hall
  constructor
  · intro hcond
    have hplan : loopCountOf s = .unbounded := by
      unfold loopCountOf
      rw [if_pos hcond, if_pos htot]
    simp [runExport, hok, hplan]
  · intro hcond
    have hplan : loopCountOf s = .finite 1 := by
      unfold loopCountOf
      rw [if_neg hcond]
    refine ⟨by simp [runExport, hok, hplan], ?_, by simp [runExport, hok, hplan]⟩
    simp [runExport, hok, hplan]

/-- Concrete instantiation of the C6 amended theorem at the zero-slide
export. -/
theorem no_zero_duration_validation_witness :
    ((⟨[], 2, false, 0, "contain", none, 0, false, false⟩ : ExportSettings).isExportLoopEnabled
        = true ∧
      0 < (⟨[], 2, false, 0, "contain", none, 0, false,
        false⟩ : ExportSettings).exportLoopDuration →
      (runExport false 1080 1920
        ⟨[], 2, false, 0, "contain", none, 0, false, false⟩).outcome = .hangs) ∧
    (¬ ((⟨[], 2, false, 0, "contain", none, 0, false, false⟩ : ExportSettings).isExportLoopEnabled
        = true ∧
      0 < (⟨[], 2, false, 0, "contain", none, 0, false,
        false⟩ : ExportSettings).exportLoopDuration) →
      (runExport false 1080 1920
        ⟨[], 2, false, 0, "contain", none, 0, false, false⟩).outcome = .complete ∧
      (runExport false 1080 1920
        ⟨[], 2, false, 0, "contain", none, 0, false, false⟩).commands ≠ [] ∧
      (runExport false 1080 1920
        ⟨[], 2, false, 0, "contain", none, 0, false, false⟩).savedFile = true) :=
  no_zero_duration_validation false 1080 1920
    ⟨[], 2, false, 0, "contain", none, 0, false, false⟩
    (by norm_num [totalSlideshowDuration]) (by decide)

/-! ## Claim C9: graceful audio fallback -/

/-- Claim C9: with an audio track present, an audio fetch, decode or mux
failure does not fail the job: the run still completes and writes the
output, the produced video has no audio track, and the fallback progress
message is surfaced. -/
theorem music_failure_graceful_fallback (c : Bool) (w hgt : ℕ) (s : ExportSettings)
    (hmusic : s.musicUrl.isSome = true)
    (hfail : s.musicFetchFails = true ∨ s.musicExecFails = true)
    (hall : ∀ st ∈ s.stories, st.fetchOk = true)
    (hplanfin : ∃ k, loopCountOf s = .finite k) :
    (runExport c w hgt s).outcome = .complete ∧
    (runExport c w hgt s).savedFile = true ∧
    (runExport c w hgt s).audioIncluded = false ∧
    (runExport c w hgt s).warningMsg =
      some "Music processing failed, creating video without audio..." := by
  obtain ⟨k, hk⟩ := hplanfin
  obtain ⟨url, hurl⟩ := Option.isSome_iff_exists.mp hmusic
  have hok := processStories_ok s.duration (getCoverFilterString w hgt s.imageFitMode)
      s.stories 0 hall
  have hm2 : (musicStage s).2 =
      (some "Music processing failed, creating video without audio...", false) := by
    rcases hfail with hf | he
    · simp [musicStage, hurl, hf]
    · by_cases hf : s.musicFetchFails
      · simp [musicStage, hurl, hf]
      · simp [musicStage, hurl, hf, he]
  refine ⟨by simp [runExport, hok, hk], by simp [runExport, hok, hk], ?_, ?_⟩
  · have : (runExport c w hgt s).audioIncluded = (musicStage s).2.2 := by
      simp [runExport, hok, hk]
    rw [this, hm2]
  · have : (runExport c w hgt s).warningMsg = (musicStage s).2.1 := by
      simp [runExport, hok, hk]
    rw [this, hm2]

/-- Concrete instantiation of the C9 theorem: a one-slide export whose
audio fetch fails still completes, saves, and carries the fallback
message. -/
theorem music_failure_graceful_fallback_witness :
    (runExport false 1080 1920
      ⟨[⟨true⟩], 2, false, 0, "contain", some "track", 5, true, false⟩).outcome = .complete ∧
    (runExport false 1080 1920
      ⟨[⟨true⟩], 2, false, 0, "contain", some "track", 5, true, false⟩).savedFile = true ∧
    (runExport false 1080 1920
      ⟨[⟨true⟩], 2, false, 0, "contain", some "track", 5, true, false⟩).audioIncluded = false ∧
    (runExport false 1080 1920
      ⟨[⟨true⟩], 2, false, 0, "contain", some "track", 5, true, false⟩).warningMsg =
      some "Music processing failed, creating video without audio..." :=
  music_failure_graceful_fallback false 1080 1920
    ⟨[⟨true⟩], 2, false, 0, "contain", some "track", 5, true, false⟩
    rfl (Or.inl rfl) (by decide)
    ⟨1, by unfold loopCountOf; rw [if_neg (by simp)]⟩

end GrooveSlider
